import Mathlib

/-!
Verification development for the remote-browser streaming server.

Each section embeds one source module of the repository as executable Lean
definitions, and the theorems at the end of the file settle the spec claims
against those definitions.  JavaScript numbers that are used as integers
(timestamps, fps, quality, counters, byte values) are modelled as `Nat`;
`undefined` is modelled as `Option.none`; JS `Map`s are modelled as
association lists in insertion order (which is the `Map` iteration order).
-/

namespace BrowserTest

/-! ## Frame codec — src/unnamed/part_004 (utils/compression)

`compressData`/`decompressData` wrap the external pako library
(`deflate(input, level 6)` / `inflate`).  pako is an out-of-scope external
collaborator, so the deflate/inflate pair is a parameter (`Pako`), and the
theorems assume its documented contract (inflate inverts deflate, output is
bytes).  The base64 conversions performed by Node's `Buffer` are modelled
concretely below. -/

/-- The standard base64 alphabet used by Node's `Buffer`. -/
def b64Alphabet : List Char :=
  "ABCDEFGHIJKLMNOPQRSTUVWXYZabcdefghijklmnopqrstuvwxyz0123456789+/".toList

/-- Character for a 6-bit group. -/
def b64Char (n : Nat) : Char := b64Alphabet.getD n 'A'

/-- 6-bit value of an alphabet character. -/
def b64Index (c : Char) : Nat := b64Alphabet.indexOf c

/-- Base64-encode a byte list (Node `Buffer.toString('base64')`,
with `=` padding). -/
def base64Encode : List Nat → List Char
  | [] => []
  | [a] => [b64Char (a / 4), b64Char (a % 4 * 16), '=', '=']
  | [a, b] => [b64Char (a / 4), b64Char (a % 4 * 16 + b / 16), b64Char (b % 16 * 4), '=']
  | a :: b :: c :: rest =>
    b64Char (a / 4) :: b64Char (a % 4 * 16 + b / 16) :: b64Char (b % 16 * 4 + c / 64) ::
      b64Char (c % 64) :: base64Encode rest

/-- Base64-decode a character list (Node `Buffer.from(s, 'base64')`) on
well-formed quadruples; trailing garbage is dropped, as Node does. -/
def base64Decode : List Char → List Nat
  | w :: x :: y :: z :: rest =>
    if y = '=' then [b64Index w * 4 + b64Index x / 16]
    else if z = '=' then
      [b64Index w * 4 + b64Index x / 16, b64Index x % 16 * 16 + b64Index y / 4]
    else
      (b64Index w * 4 + b64Index x / 16) :: (b64Index x % 16 * 16 + b64Index y / 4) ::
        (b64Index y % 4 * 64 + b64Index z) :: base64Decode rest
  | _ => []

/-- The external pako (zlib) compressor: `deflate(data, level)` and
`inflate(data)`. -/
structure Pako where
  deflate : Nat → List Nat → List Nat
  inflate : List Nat → List Nat

/-- `Uint8Array | string` input of `compressData`. -/
inductive BytesOrText
  | bytes (bs : List Nat)
  | text (s : String)

/-- UTF-8 bytes of a string (`new TextEncoder().encode(s)`). -/
def encodeUtf8 (s : String) : List Nat := s.toUTF8.toList.map UInt8.toNat

/-- `compressData`: convert string input to bytes, then `deflate` at the
fixed level 6. -/
def compressData (p : Pako) (data : BytesOrText) : List Nat :=
  let inputData := match data with
    | .text s => encodeUtf8 s
    | .bytes bs => bs
  p.deflate 6 inputData

/-- `decompressData` (bytes result; the `asString` branch additionally
UTF-8-decodes): `inflate`. -/
def decompressData (p : Pako) (data : List Nat) : List Nat :=
  p.inflate data

/-- Characters up to (not including) the next comma: the extent of one
`split(',')` segment. -/
def takeUntilComma : List Char → List Char
  | [] => []
  | c :: rest => if c = ',' then [] else c :: takeUntilComma rest

/-- The `split(',')[1]` segment: the characters between the first comma and
the following comma (or the end), `none` when the string has no comma. -/
def afterFirstComma : List Char → Option (List Char)
  | [] => none
  | c :: rest => if c = ',' then some (takeUntilComma rest) else afterFirstComma rest

/-- `base64Data.split(',')[1] || base64Data`: the segment after the first
comma when it exists and is nonempty (drops a data-URL MIME prefix), else
the whole string. -/
def splitPayload (s : String) : String :=
  match afterFirstComma s.toList with
  | some seg => if seg.isEmpty then s else String.mk seg
  | none => s

/-- `compressBase64`: strip the MIME prefix, base64-decode, deflate,
base64-encode. -/
def compressBase64 (p : Pako) (base64Data : String) : String :=
  let base64WithoutPrefix := splitPayload base64Data
  let binaryData := base64Decode base64WithoutPrefix.toList
  let compressed := compressData p (BytesOrText.bytes binaryData)
  String.mk (base64Encode compressed)

/-- `decompressBase64`: base64-decode, inflate, base64-encode, optionally
prefixing a data URL. -/
def decompressBase64 (p : Pako) (compressedBase64 : String)
    (withPrefix : Bool) (mimeType : String) : String :=
  let binaryData := base64Decode compressedBase64.toList
  let decompressed := decompressData p binaryData
  let result := String.mk (base64Encode decompressed)
  if withPrefix then "data:" ++ mimeType ++ ";base64," ++ result else result

/-- A pako implementation whose deflate/inflate are the identity; it
satisfies the library contract and instantiates the conditional theorems. -/
def idPako : Pako where
  deflate := fun _ bs => bs
  inflate := fun bs => bs

/-! ## Browser pool — src/src/services/browserService.ts

The `activeBrowsers : Map<string, BrowserInstance>` store, `createBrowser`
(with LRU replacement when `MAX_BROWSERS` is reached) and `closeBrowser`.
Browser ids (uuids in the source) are `Nat`; only the fields that the
admission logic consults are kept. -/

/-- One entry of `activeBrowsers`: its key `id` and its `lastActivity`
timestamp (`Date.now()` in ms). -/
structure PoolInst where
  id : Nat
  lastActivity : Nat
deriving DecidableEq

/-- The scan in `createBrowser` over `activeBrowsers.entries()`:
`oldestId` starts as the empty string (`none` here), `oldestTimestamp`
starts as `Date.now()`, and an entry becomes the running minimum only when
its `lastActivity` is strictly smaller. -/
def findOldestGo (oldestId : Option Nat) (oldestTimestamp : Nat) :
    List PoolInst → Option Nat
  | [] => oldestId
  | inst :: rest =>
    if inst.lastActivity < oldestTimestamp then
      findOldestGo (some inst.id) inst.lastActivity rest
    else
      findOldestGo oldestId oldestTimestamp rest

/-- The whole victim search of `createBrowser`, starting from
`oldestTimestamp = Date.now()`. -/
def findOldest (now : Nat) (l : List PoolInst) : Option Nat :=
  findOldestGo none now l

/-- `closeBrowser`: delete the instance from the map when present and
report whether it was found (when the underlying close throws, the source
still deletes the entry and returns false; the model takes the non-throwing
path, which leaves the map identical). -/
def closeBrowser (id : Nat) (l : List PoolInst) : List PoolInst × Bool :=
  if l.any (fun i => i.id == id) then (l.eraseP (fun i => i.id == id), true)
  else (l, false)

/-- JS `Map.set`: overwrite in place when the key exists, else append. -/
def poolSet (inst : PoolInst) (l : List PoolInst) : List PoolInst :=
  if l.any (fun i => i.id == inst.id) then
    l.map (fun i => if i.id == inst.id then inst else i)
  else l ++ [inst]

/-- `createBrowser`: when `activeBrowsers.size >= MAX_BROWSERS`, close the
instance found by the oldest-scan (when the scan found one), then store the
new instance with `lastActivity = Date.now()`. -/
def createBrowser (maxBrowsers : Nat) (newId : Nat) (now : Nat)
    (l : List PoolInst) : List PoolInst :=
  let l1 :=
    if maxBrowsers ≤ l.length then
      match findOldest now l with
      | some oldestId => (closeBrowser oldestId l).1
      | none => l
    else l
  poolSet ⟨newId, now⟩ l1

/-- A pool call: `createBrowser` (with the `Date.now()` of the call and the
fresh uuid it draws) or `closeBrowser`. -/
inductive PoolOp
  | create (newId now : Nat)
  | close (id : Nat)

def applyPoolOp (maxBrowsers : Nat) (l : List PoolInst) : PoolOp → List PoolInst
  | .create newId now => createBrowser maxBrowsers newId now l
  | .close id => (closeBrowser id l).1

/-- Run a call sequence against the initially empty `activeBrowsers` map. -/
def runPool (maxBrowsers : Nat) (ops : List PoolOp) : List PoolInst :=
  ops.foldl (applyPoolOp maxBrowsers) []

/-- Timing/identity side conditions of a realistic trace: every `create`
call happens strictly later (in ms) than all recorded activity, and draws a
uuid not already in the map. -/
def FreshTrace (maxBrowsers : Nat) (l : List PoolInst) : List PoolOp → Bool
  | [] => true
  | .create newId now :: rest =>
    l.all (fun i => decide (i.lastActivity < now) && decide (i.id ≠ newId))
      && FreshTrace maxBrowsers (applyPoolOp maxBrowsers l (.create newId now)) rest
  | .close id :: rest =>
    FreshTrace maxBrowsers (applyPoolOp maxBrowsers l (.close id)) rest

/-! ## Device profiles — src/unnamed/part_003 (utils/deviceProfiles)

Only `calculateStreamSettings` is consulted by the streaming claims.
`detectDeviceType` (a user-agent regex) and `getOptimalResolution` (which
rounds with JS floats) are kept outside the model: the device type and the
resolution are parameters of `initializeStream` below, so every theorem
quantifies over their possible results. -/

/-- Connection quality strings; arbitrary strings other than the three
recognised ones take the `switch` default and are collapsed to `other`. -/
inductive ConnQuality
  | slow
  | medium
  | fast
  | other
deriving DecidableEq

/-- The `DeviceType` enum of the source. -/
inductive DeviceType
  | desktop
  | tablet
  | mobile
  | tv
  | unknownDevice
deriving DecidableEq

/-- Result record of `calculateStreamSettings`. -/
structure CalcSettings where
  fps : Nat
  quality : Nat
  adaptiveBitrate : Bool
  keyframeInterval : Nat
deriving DecidableEq

/-- `calculateStreamSettings(connectionSpeed, deviceType)`: per-class
defaults, then the mobile fps cap / desktop fast boost. -/
def calculateStreamSettings (connectionSpeed : ConnQuality)
    (deviceType : DeviceType) : CalcSettings :=
  let settings : CalcSettings :=
    { fps := 30, quality := 80, adaptiveBitrate := true, keyframeInterval := 10 }
  let settings :=
    match connectionSpeed with
    | .slow => { settings with fps := 15, quality := 60, keyframeInterval := 15 }
    | .medium => { settings with fps := 24, quality := 75, keyframeInterval := 10 }
    | .fast => { settings with fps := 30, quality := 85, keyframeInterval := 8 }
    | .other => settings
  if deviceType = DeviceType.mobile then
    { settings with fps := min settings.fps 24, quality := settings.quality - 5 }
  else if deviceType = DeviceType.desktop then
    if connectionSpeed = ConnQuality.fast then { settings with fps := 60 } else settings
  else settings

/-! ## Streaming service — src/dist/services/streamingService.js

`initializeStream`, the `stream-settings` / `stream-control` /
`latency-report` listeners, `adjustQualityBasedOnLatency`, and one tick of
the `getNextFrame` producer loop.  The screenshot is an input of the tick
(`some` when `getScreenshot` returned an image, `none` when it logged a
capture error and returned null), and the base64 compressor is a function
parameter. -/

def DEFAULT_FPS : Nat := 30
def MIN_FPS : Nat := 5
def MAX_FPS : Nat := 60
def KEYFRAME_INTERVAL : Nat := 10
def MIN_QUALITY : Nat := 20
def MAX_QUALITY : Nat := 95
def DEFAULT_QUALITY : Nat := 80
def LATENCY_THRESHOLD_HIGH : Nat := 200
def LATENCY_THRESHOLD_MEDIUM : Nat := 100

/-- The per-client entry of `clientStreams`. -/
structure StreamSettings where
  browserId : Nat
  fps : Nat
  quality : Nat
  width : Nat
  height : Nat
  active : Bool
  adaptiveBitrate : Bool
  lastFrameTime : Nat
  frameCount : Nat
  bytesSent : Nat
  keyframeCount : Nat
  lastFullFrame : Option String
  previousFrame : Option String
  connectionQuality : ConnQuality
  deviceType : DeviceType
  sessionId : Option Nat
  latency : Option Nat
deriving DecidableEq

/-- JS `v || dflt` on numbers: `undefined` and `0` are falsy. -/
def jsOrNat (v : Option Nat) (dflt : Nat) : Nat :=
  match v with
  | some n => if n = 0 then dflt else n
  | none => dflt

/-- The optional fields of the `init` payload / `initialSettings`. -/
structure InitSettings where
  fps : Option Nat
  quality : Option Nat
  width : Option Nat
  height : Option Nat
  adaptiveBitrate : Option Bool
  connectionQuality : Option ConnQuality
deriving DecidableEq

/-- `initializeStream`: derive settings from the connection class and
device type, override with client-supplied values, clamp, and store the
fresh stream state (the resolution computed by `getOptimalResolution` and
the device type from `detectDeviceType` enter as parameters). -/
def initializeStream (browserId : Nat) (initialSettings : InitSettings)
    (deviceType : DeviceType) (resolution : Nat × Nat) (sessionId : Option Nat)
    (now : Nat) : StreamSettings :=
  let connectionQuality := initialSettings.connectionQuality.getD ConnQuality.medium
  let streamSettings := calculateStreamSettings connectionQuality deviceType
  let fps := jsOrNat initialSettings.fps streamSettings.fps
  let quality := jsOrNat initialSettings.quality streamSettings.quality
  let adaptiveBitrate := initialSettings.adaptiveBitrate.getD streamSettings.adaptiveBitrate
  { browserId := browserId
    fps := min MAX_FPS (max MIN_FPS fps)
    quality := min MAX_QUALITY (max MIN_QUALITY quality)
    width := resolution.1
    height := resolution.2
    active := true
    adaptiveBitrate := adaptiveBitrate
    lastFrameTime := now
    frameCount := 0
    bytesSent := 0
    keyframeCount := 0
    lastFullFrame := none
    previousFrame := none
    connectionQuality := connectionQuality
    deviceType := deviceType
    sessionId := sessionId
    latency := none }

/-- The optional fields of a `stream-settings` message. -/
structure SettingsReq where
  fps : Option Nat
  quality : Option Nat
  width : Option Nat
  height : Option Nat
  adaptiveBitrate : Option Bool
  connectionQuality : Option ConnQuality
deriving DecidableEq

/-- The `stream-settings` listener: each supplied field is validated,
clamped and written (the source mutates field by field; the updates are
independent, so they collapse to one record update), and
`keyframeCount` is reset to `0` unconditionally. -/
def streamSettingsHandler (req : SettingsReq) (cur : StreamSettings) :
    StreamSettings :=
  { cur with
    fps := match req.fps with
      | some f => max MIN_FPS (min MAX_FPS f)
      | none => cur.fps
    quality := match req.quality with
      | some q => max MIN_QUALITY (min MAX_QUALITY q)
      | none => cur.quality
    width := if req.width.isSome || req.height.isSome then jsOrNat req.width cur.width
      else cur.width
    height := if req.width.isSome || req.height.isSome then jsOrNat req.height cur.height
      else cur.height
    adaptiveBitrate := req.adaptiveBitrate.getD cur.adaptiveBitrate
    connectionQuality := req.connectionQuality.getD cur.connectionQuality
    keyframeCount := 0 }

/-- The `stream-control` listener on the stored settings: set `active`
(the conditional loop restart is part of the socket-level model). -/
def streamControlHandler (streaming : Bool) (s : StreamSettings) : StreamSettings :=
  { s with active := streaming }

/-- `adjustQualityBasedOnLatency`: the thresholds and the
`MIN_QUALITY + 10` / `MIN_FPS + 5` / `MIN_QUALITY + 5` guards of the
source, with clamped decrements/increments. -/
def adjustQualityBasedOnLatency (s : StreamSettings) : StreamSettings :=
  match s.latency with
  | none => s
  | some lat =>
    if lat = 0 then s
    else if LATENCY_THRESHOLD_HIGH < lat then
      let s1 := if MIN_QUALITY + 10 < s.quality then
          { s with quality := max MIN_QUALITY (s.quality - 5) } else s
      if MIN_FPS + 5 < s1.fps then { s1 with fps := max MIN_FPS (s1.fps - 2) } else s1
    else if LATENCY_THRESHOLD_MEDIUM < lat then
      if MIN_QUALITY + 5 < s.quality then
        { s with quality := max MIN_QUALITY (s.quality - 2) } else s
    else
      let s1 := if s.quality < DEFAULT_QUALITY then
          { s with quality := min MAX_QUALITY (s.quality + 1) } else s
      if s1.fps < DEFAULT_FPS then { s1 with fps := min DEFAULT_FPS (s1.fps + 1) } else s1

/-- The `latency-report` listener: record the latency, then adjust when
adaptive bitrate is on and the reported latency is truthy. -/
def latencyReportHandler (lat : Nat) (s0 : StreamSettings) : StreamSettings :=
  let s := { s0 with latency := some lat }
  if s.adaptiveBitrate ∧ lat ≠ 0 then adjustQualityBasedOnLatency s else s

/-- A `frame` message. -/
structure Frame where
  image : String
  isKeyframe : Bool
  quality : Nat
  timestamp : Nat
deriving DecidableEq

/-- Result of one `getNextFrame` tick: the mutated settings, the frame
emitted on the socket (if any), and whether `setTimeout(getNextFrame, _)`
was called again (the loop chain stays scheduled). -/
structure TickResult where
  settings : StreamSettings
  emitted : Option Frame
  rescheduled : Bool
deriving DecidableEq

/-- The adaptive block of `getNextFrame`.  The float comparisons
`1000/elapsed < fps*0.9` and `1000/elapsed > fps*1.1` are rendered by the
equivalent exact rational comparisons `10000 < 9*fps*elapsed` and
`10000 > 11*fps*elapsed` (the guard `elapsed > 0` holds at every call). -/
def adjustQualityForFps (s : StreamSettings) (elapsed : Nat) : StreamSettings :=
  if 10000 < 9 * s.fps * elapsed ∧ 20 < s.quality then
    { s with quality := max 20 (s.quality - 5) }
  else if 11 * s.fps * elapsed < 10000 ∧ s.quality < 95 then
    { s with quality := min 95 (s.quality + 2) }
  else s

/-- One tick of the producer loop started by `startStreamLoop`:
`isStreaming` is the closure flag, `screenshot` the result of
`getScreenshot` (null on capture failure), `compress` the
`compressBase64` pipeline.  The keyframe and the delta branch emit the
same compressed frame and differ only in the flag and in storing
`lastFullFrame`, so they are merged. -/
def getNextFrame (compress : String → String) (isStreaming : Bool)
    (s0 : StreamSettings) (now : Nat) (screenshot : Option String) : TickResult :=
  if !isStreaming || !s0.active then { settings := s0, emitted := none, rescheduled := false }
  else
    let elapsed := now - s0.lastFrameTime
    let s := if s0.adaptiveBitrate ∧ 0 < elapsed then adjustQualityForFps s0 elapsed else s0
    let isKeyframe := s.keyframeCount % KEYFRAME_INTERVAL == 0
    let s := { s with keyframeCount := s.keyframeCount + 1 }
    match screenshot with
    | some shot =>
      let s := { s with frameCount := s.frameCount + 1, lastFrameTime := now }
      let compressed := compress shot
      let s := { s with
        bytesSent := s.bytesSent + compressed.length
        lastFullFrame := if isKeyframe then some shot else s.lastFullFrame
        previousFrame := some shot }
      { settings := s
        emitted := some (Frame.mk compressed isKeyframe s.quality now)
        rescheduled := true }
    | none => { settings := s, emitted := none, rescheduled := true }

/-- A control-plane or loop event hitting one client's stream state. -/
inductive StreamEvent
  | settingsUpdate (req : SettingsReq)
  | latencyReport (lat : Nat)
  | control (streaming : Bool)
  | frameTick (now : Nat) (screenshot : Option String)

/-- Apply one event to the stored stream settings. -/
def applyStreamEvent (compress : String → String) (s : StreamSettings) :
    StreamEvent → StreamSettings
  | .settingsUpdate req => streamSettingsHandler req s
  | .latencyReport lat => latencyReportHandler lat s
  | .control b => streamControlHandler b s
  | .frameTick now shot => (getNextFrame compress true s now shot).settings

/-- Run a sequence of successful-capture ticks (time, screenshot) through
the loop. -/
def foldTicks (compress : String → String) (s : StreamSettings)
    (ticks : List (Nat × Option String)) : StreamSettings :=
  ticks.foldl (fun st t => (getNextFrame compress true st t.1 t.2).settings) s

/-- The clamping invariant of the spec: fps and quality within bounds. -/
def StreamInv (s : StreamSettings) : Prop :=
  MIN_FPS ≤ s.fps ∧ s.fps ≤ MAX_FPS ∧ MIN_QUALITY ≤ s.quality ∧ s.quality ≤ MAX_QUALITY

/-! ## Session service — src/src/services/sessionService.ts

The two maps `sessions : Map<id, Session>` and
`tokenToSessionMap : Map<token, id>`, with `getSession`, `deleteSession`
and `validateSession`.  Ids and tokens (uuids in the source) are `Nat`.
The `Date.now()` readings inside one call are modelled as the single
instant `now` of that call. -/

def SESSION_TIMEOUT : Nat := 2 * 60 * 60 * 1000

/-- The session record (fields not read by any claimed operation, such as
`type`, `username` and the settings bag, are independent payload carried by
`ipAddress`/`userAgent`-style fields and are represented by the fields
kept here). -/
structure Session where
  id : Nat
  token : Nat
  createdAt : Nat
  lastActivity : Nat
  ipAddress : String
  userAgent : String
  browserId : Option Nat
deriving DecidableEq

/-- The session store: both maps, in insertion order. -/
structure SessionStore where
  sessions : List (Nat × Session)
  tokenToSessionMap : List (Nat × Nat)
deriving DecidableEq

/-- The id an argument of `getSession` resolves to: through
`tokenToSessionMap` when it is a known token, else taken as an id. -/
def resolveSessionId (store : SessionStore) (idOrToken : Nat) : Nat :=
  match store.tokenToSessionMap.lookup idOrToken with
  | some sid => sid
  | none => idOrToken

/-- `getSession(idOrToken)`: resolve a token to an id, look the session up,
and on success set its `lastActivity` to `new Date()` (mutating the stored
record) before returning it. -/
def getSession (store : SessionStore) (idOrToken : Nat) (now : Nat) :
    SessionStore × Option Session :=
  let rid := resolveSessionId store idOrToken
  match store.sessions.lookup rid with
  | some session =>
    let updated := { session with lastActivity := now }
    let newSessions :=
      store.sessions.map (fun p => if p.1 == rid then (p.1, updated) else p)
    ({ store with sessions := newSessions }, some updated)
  | none => (store, none)

/-- `deleteSession(sessionId)`: remove the session and its token-index
entry; report whether it existed. -/
def deleteSession (store : SessionStore) (sessionId : Nat) :
    SessionStore × Bool :=
  match store.sessions.lookup sessionId with
  | none => (store, false)
  | some session =>
    ({ sessions := store.sessions.eraseP (fun p => p.1 == sessionId)
       tokenToSessionMap :=
         store.tokenToSessionMap.eraseP (fun p => p.1 == session.token) },
     true)

/-- `validateSession(token)`: `getSession` first (which refreshes
`lastActivity`), then the expiry test
`now - lastActivity > SESSION_TIMEOUT`, deleting on expiry. -/
def validateSession (store : SessionStore) (token : Nat) (now : Nat) :
    SessionStore × Option Session :=
  match getSession store token now with
  | (store1, none) => (store1, none)
  | (store1, some session) =>
    let timeSinceLastActivity := now - session.lastActivity
    if SESSION_TIMEOUT < timeSinceLastActivity then
      ((deleteSession store1 session.id).1, none)
    else (store1, some session)

/-! ## Socket service — src/dist/services/socketService.js

The `socketBrowserMap` and the `init`/`disconnect` handlers, together with
the producer-loop chains they own.  A loop chain (one `startStreamLoop`
call and its `setTimeout` recursion) is recorded by its owning socket id;
the `init` handler reuses the mapped browser when one exists but calls
`initializeStream` — and hence `startStreamLoop` — unconditionally, while
`disconnect` stops every chain of the socket through the per-loop
`isStreaming = false` disconnect listeners. -/

/-- Socket-level state: the socket→browser map and the scheduled
producer-loop chains (socket ids, with multiplicity). -/
structure SocketState where
  socketBrowserMap : List (Nat × Nat)
  loops : List Nat
deriving DecidableEq

/-- A socket-level event: an `init` message (with the browser id that
`createBrowser` would return if a new browser is needed) or a transport
disconnect. -/
inductive SocketEvent
  | init (socketId freshBrowserId : Nat)
  | disconnect (socketId : Nat)

/-- Apply one socket event: `init` reuses the mapped browser id when
present (else maps the fresh one) and always starts a stream loop;
`disconnect` closes the browser, removes the mapping and stops the
socket's loop chains. -/
def applySocketEvent (st : SocketState) : SocketEvent → SocketState
  | .init socketId freshBrowserId =>
    let map :=
      match st.socketBrowserMap.lookup socketId with
      | some _ => st.socketBrowserMap
      | none => st.socketBrowserMap ++ [(socketId, freshBrowserId)]
    { socketBrowserMap := map, loops := st.loops ++ [socketId] }
  | .disconnect socketId =>
    { socketBrowserMap := st.socketBrowserMap.eraseP (fun p => p.1 == socketId)
      loops := st.loops.filter (fun sid => sid != socketId) }

/-- Run socket events from the empty state. -/
def runSocket (events : List SocketEvent) : SocketState :=
  events.foldl applySocketEvent { socketBrowserMap := [], loops := [] }

/-! ## Concrete states used by witnesses and counterexamples -/

/-- A stream initialised for a fast desktop connection with no client
overrides (fps 60, quality 85, adaptive on). -/
def fastStream : StreamSettings :=
  initializeStream 1
    (InitSettings.mk none none none none none (some ConnQuality.fast))
    DeviceType.desktop (2560, 1440) none 0

/-- `fastStream` after eight successful frames (`keyframeCount = 8`). -/
def fastStreamAfter8 : StreamSettings :=
  foldTicks id fastStream
    [(100, some "s"), (200, some "s"), (300, some "s"), (400, some "s"),
     (500, some "s"), (600, some "s"), (700, some "s"), (800, some "s")]

/-- A stream whose connection class fell through the `switch` default:
fps 30, quality 80 (the module defaults), adaptive on. -/
def defaultStream : StreamSettings :=
  initializeStream 2
    (InitSettings.mk none none none none none (some ConnQuality.other))
    DeviceType.desktop (1920, 1080) none 0

/-- `defaultStream` after three successful frames (`keyframeCount = 3`). -/
def c5Stream : StreamSettings :=
  foldTicks id defaultStream [(100, some "s"), (200, some "s"), (300, some "s")]

/-- `c5Stream` after a `stream-settings` message setting quality 50
(`keyframeCount` reset to 0). -/
def c5AfterChange : StreamSettings :=
  streamSettingsHandler (SettingsReq.mk none (some 50) none none none none) c5Stream

/-- `defaultStream` brought down to quality 25 by a `stream-settings`
message. -/
def lowQualityStream : StreamSettings :=
  streamSettingsHandler (SettingsReq.mk none (some 25) none none none none)
    defaultStream

/-- A session store holding one session whose `lastActivity` is 0. -/
def staleStore : SessionStore :=
  SessionStore.mk [(1, Session.mk 1 42 0 0 "ip" "ua" none)] [(42, 1)]

/-! ## Supporting lemmas -/

theorem b64Index_b64Char : ∀ n < 64, b64Index (b64Char n) = n := by decide

theorem b64Char_ne_pad : ∀ n < 64, b64Char n ≠ '=' := by decide

theorem base64_decode_encode (bs : List Nat) (h : ∀ b ∈ bs, b < 256) :
    base64Decode (base64Encode bs) = bs := by
  induction bs using base64Encode.induct with
  | case1 => simp [base64Encode, base64Decode]
  | case2 a =>
    have ha : a < 256 := h a (by simp)
    have h1 : b64Index (b64Char (a / 4)) = a / 4 := b64Index_b64Char _ (by omega)
    have h2 : b64Index (b64Char (a % 4 * 16)) = a % 4 * 16 := b64Index_b64Char _ (by omega)
    simp only [base64Encode, base64Decode, if_true, h1, h2, List.cons.injEq, and_true]
    omega
  | case3 a b =>
    have ha : a < 256 := h a (by simp)
    have hb : b < 256 := h b (by simp)
    have h1 : b64Index (b64Char (a / 4)) = a / 4 := b64Index_b64Char _ (by omega)
    have h2 : b64Index (b64Char (a % 4 * 16 + b / 16)) = a % 4 * 16 + b / 16 :=
      b64Index_b64Char _ (by omega)
    have h3 : b64Index (b64Char (b % 16 * 4)) = b % 16 * 4 := b64Index_b64Char _ (by omega)
    have hy : b64Char (b % 16 * 4) ≠ '=' := b64Char_ne_pad _ (by omega)
    simp only [base64Encode, base64Decode, if_neg hy, if_true, h1, h2, h3,
      List.cons.injEq, and_true]
    omega
  | case4 a b c rest ih =>
    have ha : a < 256 := h a (by simp)
    have hb : b < 256 := h b (by simp)
    have hc : c < 256 := h c (by simp)
    have h1 : b64Index (b64Char (a / 4)) = a / 4 := b64Index_b64Char _ (by omega)
    have h2 : b64Index (b64Char (a % 4 * 16 + b / 16)) = a % 4 * 16 + b / 16 :=
      b64Index_b64Char _ (by omega)
    have h3 : b64Index (b64Char (b % 16 * 4 + c / 64)) = b % 16 * 4 + c / 64 :=
      b64Index_b64Char _ (by omega)
    have h4 : b64Index (b64Char (c % 64)) = c % 64 := b64Index_b64Char _ (by omega)
    have hy : b64Char (b % 16 * 4 + c / 64) ≠ '=' := b64Char_ne_pad _ (by omega)
    have hz : b64Char (c % 64) ≠ '=' := b64Char_ne_pad _ (by omega)
    have ih' := ih (fun x hx => h x (by simp [hx]))
    simp only [base64Encode, base64Decode, if_neg hy, if_neg hz, h1, h2, h3, h4, ih',
      List.cons.injEq, and_true]
    omega

theorem findOldestGo_no_update (l : List PoolInst) (acc : Option Nat) (ts : Nat)
    (h : ∀ i ∈ l, ¬ i.lastActivity < ts) : findOldestGo acc ts l = acc := by
  induction l with
  | nil => rfl
  | cons x rest ih =>
    rw [findOldestGo, if_neg (h x (by simp))]
    exact ih fun i hi => h i (by simp [hi])

theorem findOldestGo_min (l : List PoolInst) :
    ∀ (acc : Option Nat) (ts : Nat), (∃ i ∈ l, i.lastActivity < ts) →
    ∃ i ∈ l, findOldestGo acc ts l = some i.id ∧ i.lastActivity < ts ∧
      ∀ j ∈ l, j.lastActivity < ts → i.lastActivity ≤ j.lastActivity := by
  induction l with
  | nil => intro acc ts h; simp at h
  | cons x rest ih =>
    intro acc ts hex
    by_cases hx : x.lastActivity < ts
    · rw [findOldestGo, if_pos hx]
      by_cases he : ∃ j ∈ rest, j.lastActivity < x.lastActivity
      · obtain ⟨i, hmem, heq, hlt, hmin⟩ := ih (some x.id) x.lastActivity he
        refine ⟨i, by simp [hmem], heq, by omega, ?_⟩
        intro j hj hjts
        rcases List.mem_cons.mp hj with hj | hj
        · subst hj; omega
        · by_cases hjx : j.lastActivity < x.lastActivity
          · exact hmin j hj hjx
          · omega
      · push_neg at he
        rw [findOldestGo_no_update rest (some x.id) x.lastActivity
          (fun j hj => by have := he j hj; omega)]
        refine ⟨x, by simp, rfl, hx, ?_⟩
        intro j hj _
        rcases List.mem_cons.mp hj with hj | hj
        · subst hj; omega
        · have := he j hj; omega
    · rw [findOldestGo, if_neg hx]
      obtain ⟨i0, hi0, hi0t⟩ := hex
      have hi0r : i0 ∈ rest := by
        rcases List.mem_cons.mp hi0 with h | h
        · subst h; omega
        · exact h
      obtain ⟨i, hmem, heq, hlt, hmin⟩ := ih acc ts ⟨i0, hi0r, hi0t⟩
      refine ⟨i, by simp [hmem], heq, hlt, ?_⟩
      intro j hj hjts
      rcases List.mem_cons.mp hj with hj | hj
      · subst hj; omega
      · exact hmin j hj hjts

theorem poolSet_fresh (inst : PoolInst) (l : List PoolInst)
    (h : ∀ i ∈ l, i.id ≠ inst.id) : poolSet inst l = l ++ [inst] := by
  rw [poolSet, if_neg]
  simp only [List.any_eq_true, beq_iff_eq, not_exists, not_and]
  exact fun i hi => h i hi

theorem pool_capacity_aux (maxBrowsers : Nat) (hmax : 1 ≤ maxBrowsers) :
    ∀ (ops : List PoolOp) (l : List PoolInst), l.length ≤ maxBrowsers →
    FreshTrace maxBrowsers l ops = true →
    (ops.foldl (applyPoolOp maxBrowsers) l).length ≤ maxBrowsers := by
  intro ops
  induction ops with
  | nil => intro l hl _; simpa using hl
  | cons op rest ih =>
    intro l hl hfresh
    rw [List.foldl_cons]
    cases op with
    | close id =>
      rw [FreshTrace] at hfresh
      refine ih (applyPoolOp maxBrowsers l (.close id)) ?_ hfresh
      rw [applyPoolOp, closeBrowser]
      split
      · exact le_trans (List.length_eraseP_le l) hl
      · exact hl
    | create newId now =>
      rw [FreshTrace, Bool.and_eq_true] at hfresh
      obtain ⟨hop, hrest⟩ := hfresh
      refine ih (applyPoolOp maxBrowsers l (.create newId now)) ?_ hrest
      simp only [List.all_eq_true, Bool.and_eq_true, decide_eq_true_eq] at hop
      rw [applyPoolOp]
      by_cases hfull : maxBrowsers ≤ l.length
      · have hne : l ≠ [] := by
          intro hnil
          rw [hnil] at hfull
          simp at hfull
          omega
        obtain ⟨i0, hi0⟩ := List.exists_mem_of_ne_nil l hne
        obtain ⟨v, hv, hveq, _, _⟩ :=
          findOldestGo_min l none now ⟨i0, hi0, (hop i0 hi0).1⟩
        have hcb : l.any (fun i => i.id == v.id) = true := by
          simp only [List.any_eq_true, beq_iff_eq]
          exact ⟨v, hv, rfl⟩
        simp only [createBrowser, findOldest, hveq, if_pos hfull, closeBrowser,
          if_pos hcb]
        rw [poolSet_fresh _ _ (fun i hi =>
          (hop i (List.mem_of_mem_eraseP hi)).2)]
        rw [List.length_append,
          List.length_eraseP_of_mem hv (by simp), List.length_singleton]
        have : 1 ≤ l.length := by
          cases l with
          | nil => exact absurd rfl hne
          | cons a t => simp
        omega
      · simp only [createBrowser, if_neg hfull]
        rw [poolSet_fresh _ _ (fun i hi => (hop i hi).2)]
        rw [List.length_append, List.length_singleton]
        omega

theorem streamInv_initializeStream (browserId : Nat) (initialSettings : InitSettings)
    (deviceType : DeviceType) (resolution : Nat × Nat) (sessionId : Option Nat)
    (now : Nat) :
    StreamInv (initializeStream browserId initialSettings deviceType resolution
      sessionId now) := by
  unfold initializeStream StreamInv MIN_FPS MAX_FPS MIN_QUALITY MAX_QUALITY
  refine ⟨?_, ?_, ?_, ?_⟩ <;> simp

theorem streamInv_settingsHandler (req : SettingsReq) (s : StreamSettings)
    (h : StreamInv s) : StreamInv (streamSettingsHandler req s) := by
  obtain ⟨h1, h2, h3, h4⟩ := h
  unfold streamSettingsHandler StreamInv MIN_FPS MAX_FPS MIN_QUALITY MAX_QUALITY at *
  cases req.fps <;> cases req.quality <;> (try simp) <;> omega

theorem streamInv_adjustFps (s : StreamSettings) (elapsed : Nat) (h : StreamInv s) :
    StreamInv (adjustQualityForFps s elapsed) := by
  obtain ⟨h1, h2, h3, h4⟩ := h
  unfold adjustQualityForFps StreamInv MIN_FPS MAX_FPS MIN_QUALITY MAX_QUALITY at *
  split_ifs <;> (try simp) <;> omega

theorem streamInv_adjustLatency (s : StreamSettings) (h : StreamInv s) :
    StreamInv (adjustQualityBasedOnLatency s) := by
  obtain ⟨h1, h2, h3, h4⟩ := h
  rw [adjustQualityBasedOnLatency.eq_def]
  cases s.latency with
  | none => exact ⟨h1, h2, h3, h4⟩
  | some lat =>
    unfold StreamInv MIN_FPS MAX_FPS MIN_QUALITY MAX_QUALITY DEFAULT_FPS DEFAULT_QUALITY
      LATENCY_THRESHOLD_HIGH LATENCY_THRESHOLD_MEDIUM at *
    dsimp only
    split_ifs <;> (try simp) <;> omega

theorem streamInv_latencyReport (lat : Nat) (s : StreamSettings) (h : StreamInv s) :
    StreamInv (latencyReportHandler lat s) := by
  unfold latencyReportHandler
  dsimp only
  split
  · exact streamInv_adjustLatency _ h
  · exact h

theorem streamInv_control (b : Bool) (s : StreamSettings) (h : StreamInv s) :
    StreamInv (streamControlHandler b s) := h

theorem streamInv_tick (compress : String → String) (isStreaming : Bool)
    (s : StreamSettings) (now : Nat) (shot : Option String) (h : StreamInv s) :
    StreamInv (getNextFrame compress isStreaming s now shot).settings := by
  unfold getNextFrame
  split
  · exact h
  · have hmid : StreamInv (if s.adaptiveBitrate ∧ 0 < now - s.lastFrameTime then
        adjustQualityForFps s (now - s.lastFrameTime) else s) := by
      split
      · exact streamInv_adjustFps _ _ h
      · exact h
    cases shot with
    | some img => exact hmid
    | none => exact hmid

theorem streamInv_events (compress : String → String) (events : List StreamEvent)
    (s : StreamSettings) (h : StreamInv s) :
    StreamInv (events.foldl (applyStreamEvent compress) s) := by
  induction events generalizing s with
  | nil => exact h
  | cons e rest ih =>
    rw [List.foldl_cons]
    refine ih _ ?_
    cases e with
    | settingsUpdate req => exact streamInv_settingsHandler req s h
    | latencyReport lat => exact streamInv_latencyReport lat s h
    | control b => exact streamInv_control b s h
    | frameTick now shot => exact streamInv_tick compress true s now shot h

theorem adjustQualityForFps_keyframeCount (s : StreamSettings) (e : Nat) :
    (adjustQualityForFps s e).keyframeCount = s.keyframeCount := by
  unfold adjustQualityForFps
  split_ifs <;> rfl

theorem adjustQualityForFps_active (s : StreamSettings) (e : Nat) :
    (adjustQualityForFps s e).active = s.active := by
  unfold adjustQualityForFps
  split_ifs <;> rfl

theorem streamSettingsHandler_active (req : SettingsReq) (s : StreamSettings) :
    (streamSettingsHandler req s).active = s.active := rfl

theorem streamSettingsHandler_keyframeCount (req : SettingsReq) (s : StreamSettings) :
    (streamSettingsHandler req s).keyframeCount = 0 := rfl

theorem getNextFrame_none_skips (compress : String → String) (s : StreamSettings)
    (now : Nat) (hact : s.active = true) :
    getNextFrame compress true s now none =
      TickResult.mk
        { (if s.adaptiveBitrate = true ∧ 0 < now - s.lastFrameTime then
            adjustQualityForFps s (now - s.lastFrameTime) else s) with
          keyframeCount :=
            (if s.adaptiveBitrate = true ∧ 0 < now - s.lastFrameTime then
              adjustQualityForFps s (now - s.lastFrameTime) else s).keyframeCount + 1 }
        none true := by
  unfold getNextFrame
  rw [hact]
  rfl

theorem getNextFrame_keyframe_flag (compress : String → String) (s : StreamSettings)
    (now : Nat) (shot : String) (hact : s.active = true) :
    ((getNextFrame compress true s now (some shot)).emitted.map
      (fun f => f.isKeyframe)) =
      some (s.keyframeCount % KEYFRAME_INTERVAL == 0) := by
  unfold getNextFrame
  rw [hact]
  dsimp only
  rw [if_neg (by simp)]
  dsimp only
  split
  · rw [adjustQualityForFps_keyframeCount]
    rfl
  · rfl

theorem createBrowser_evicts_lru (maxBrowsers newId now : Nat) (l : List PoolInst)
    (hmax : 1 ≤ maxBrowsers) (hfull : maxBrowsers ≤ l.length)
    (hfresh : ∀ i ∈ l, i.lastActivity < now ∧ i.id ≠ newId) :
    ∃ v ∈ l, (∀ j ∈ l, v.lastActivity ≤ j.lastActivity) ∧
      (closeBrowser v.id l).2 = true ∧
      ((closeBrowser v.id l).1).length + 1 = l.length ∧
      createBrowser maxBrowsers newId now l =
        (closeBrowser v.id l).1 ++ [PoolInst.mk newId now] := by
  have hne : l ≠ [] := by
    intro hnil
    rw [hnil] at hfull
    simp at hfull
    omega
  obtain ⟨i0, hi0⟩ := List.exists_mem_of_ne_nil l hne
  obtain ⟨v, hv, hveq, _, hmin⟩ :=
    findOldestGo_min l none now ⟨i0, hi0, (hfresh i0 hi0).1⟩
  have hcb : l.any (fun i => i.id == v.id) = true := by
    simp only [List.any_eq_true, beq_iff_eq]
    exact ⟨v, hv, rfl⟩
  have hlen : 0 < l.length := List.length_pos.mpr hne
  refine ⟨v, hv, fun j hj => hmin j hj (hfresh j hj).1, ?_, ?_, ?_⟩
  · rw [closeBrowser, if_pos hcb]
  · rw [closeBrowser, if_pos hcb]
    dsimp only
    rw [List.length_eraseP_of_mem hv (by simp)]
    omega
  · simp only [createBrowser, findOldest, hveq, if_pos hfull, closeBrowser, if_pos hcb]
    exact poolSet_fresh _ _ fun i hi => (hfresh i (List.mem_of_mem_eraseP hi)).2

/-! ## Claims -/

/-- C1, counterexample: two `createBrowser` calls in the same millisecond
(`Date.now() = 5` twice) against `MAX_BROWSERS = 1` leave two live
instances — the victim scan starts at `oldestTimestamp = Date.now()` with a
strict comparison, finds nothing, and no instance is closed — so the claim
`count() ≤ MaxBrowsers` fails as stated. -/
theorem pool_capacity_counterexample :
    (runPool 1 [PoolOp.create 0 5, PoolOp.create 1 5]).length = 2 ∧
    ¬ (runPool 1 [PoolOp.create 0 5, PoolOp.create 1 5]).length ≤ 1 := by decide

/-- C1, amended: for traces in which every `create` happens strictly later
than all recorded activity (and draws a fresh uuid), the pool never exceeds
`MAX_BROWSERS`, and a `create` against a full pool closes exactly one
instance, one of minimal `lastActivity`, before appending the new one. -/
theorem pool_capacity_and_lru :
    (∀ maxBrowsers ops, 1 ≤ maxBrowsers → FreshTrace maxBrowsers [] ops = true →
      (runPool maxBrowsers ops).length ≤ maxBrowsers) ∧
    (∀ maxBrowsers newId now l, 1 ≤ maxBrowsers → maxBrowsers ≤ l.length →
      (∀ i ∈ l, i.lastActivity < now ∧ i.id ≠ newId) →
      ∃ v ∈ l, (∀ j ∈ l, v.lastActivity ≤ j.lastActivity) ∧
        (closeBrowser v.id l).2 = true ∧
        ((closeBrowser v.id l).1).length + 1 = l.length ∧
        createBrowser maxBrowsers newId now l =
          (closeBrowser v.id l).1 ++ [PoolInst.mk newId now]) :=
  ⟨fun maxBrowsers ops h1 h2 => pool_capacity_aux maxBrowsers h1 ops [] (by simp) h2,
   fun maxBrowsers newId now l h1 h2 h3 =>
     createBrowser_evicts_lru maxBrowsers newId now l h1 h2 h3⟩

/-- C1, witness: a three-create trace against `MAX_BROWSERS = 2` stays at
two instances, and a full pool of two evicts its least-recently-active
member. -/
theorem pool_capacity_and_lru_witness :
    (runPool 2 [PoolOp.create 0 10, PoolOp.create 1 20, PoolOp.create 2 30]).length ≤ 2 ∧
    (∃ v ∈ [PoolInst.mk 0 10, PoolInst.mk 1 20],
      (∀ j ∈ [PoolInst.mk 0 10, PoolInst.mk 1 20], v.lastActivity ≤ j.lastActivity) ∧
      (closeBrowser v.id [PoolInst.mk 0 10, PoolInst.mk 1 20]).2 = true ∧
      ((closeBrowser v.id [PoolInst.mk 0 10, PoolInst.mk 1 20]).1).length + 1 =
        [PoolInst.mk 0 10, PoolInst.mk 1 20].length ∧
      createBrowser 2 5 30 [PoolInst.mk 0 10, PoolInst.mk 1 20] =
        (closeBrowser v.id [PoolInst.mk 0 10, PoolInst.mk 1 20]).1 ++ [PoolInst.mk 5 30]) :=
  ⟨pool_capacity_and_lru.1 2 [PoolOp.create 0 10, PoolOp.create 1 20, PoolOp.create 2 30]
      (by decide) (by decide),
   pool_capacity_and_lru.2 2 5 30 [PoolInst.mk 0 10, PoolInst.mk 1 20]
      (by decide) (by decide) (by decide)⟩

/-- C2: under the pako contract (inflate inverts level-6 deflate on byte
input, and deflate emits bytes), `decompressData ∘ compressData` is the
identity on byte sequences, and `decompressBase64 ∘ compressBase64`
returns the base64 payload with any data-URL MIME prefix stripped. -/
theorem codec_roundtrip (p : Pako)
    (hround : ∀ xs : List Nat, (∀ b ∈ xs, b < 256) → p.inflate (p.deflate 6 xs) = xs)
    (hbytes : ∀ xs : List Nat, (∀ b ∈ xs, b < 256) → ∀ b ∈ p.deflate 6 xs, b < 256) :
    (∀ xs : List Nat, (∀ b ∈ xs, b < 256) →
      decompressData p (compressData p (BytesOrText.bytes xs)) = xs) ∧
    (∀ s : String, ∀ bs : List Nat, (∀ b ∈ bs, b < 256) →
      splitPayload s = String.mk (base64Encode bs) →
      decompressBase64 p (compressBase64 p s) false "image/jpeg" = splitPayload s) := by
  constructor
  · intro xs hxs
    exact hround xs hxs
  · intro s bs hbs hsplit
    unfold decompressBase64 compressBase64 decompressData compressData
    dsimp only
    rw [hsplit]
    have ht : ∀ l : List Char, (String.mk l).toList = l := fun l => rfl
    simp only [ht]
    rw [base64_decode_encode bs hbs, base64_decode_encode _ (hbytes bs hbs),
      hround bs hbs]
    rfl

/-- C2, witness: the identity-pako instance on the bytes `[0, 255, 7]` and
on the data URL carrying their base64 form `AP8H`. -/
theorem codec_roundtrip_witness :
    decompressData idPako (compressData idPako (BytesOrText.bytes [0, 255, 7])) =
      [0, 255, 7] ∧
    decompressBase64 idPako (compressBase64 idPako "data:image/jpeg;base64,AP8H")
      false "image/jpeg" = splitPayload "data:image/jpeg;base64,AP8H" :=
  ⟨(codec_roundtrip idPako (fun _ _ => rfl) (fun _ h => h)).1 [0, 255, 7] (by decide),
   (codec_roundtrip idPako (fun _ _ => rfl) (fun _ h => h)).2
     "data:image/jpeg;base64,AP8H" [0, 255, 7] (by decide) (by decide)⟩

/-- C3, counterexample: a tick whose `getScreenshot` returns null emits
nothing but reschedules the loop, and the very next tick emits a frame —
the loop does not terminate after a single failed snapshot. -/
theorem capture_failure_counterexample :
    (getNextFrame id true defaultStream 100 none).emitted = none ∧
    (getNextFrame id true defaultStream 100 none).rescheduled = true ∧
    ((getNextFrame id true ((getNextFrame id true defaultStream 100 none).settings) 200
      (some "img")).emitted).isSome = true := by decide

/-- C3, amended: a failed snapshot (null from `getScreenshot`) causes the
tick to skip the frame and reschedule; the loop stays active (it
terminates only when an exception is thrown inside the tick, e.g. on
transport loss). -/
theorem capture_failure_skips_frame (compress : String → String) (s : StreamSettings)
    (now : Nat) (hact : s.active = true) :
    (getNextFrame compress true s now none).emitted = none ∧
    (getNextFrame compress true s now none).rescheduled = true ∧
    (getNextFrame compress true s now none).settings.active = true := by
  rw [getNextFrame_none_skips compress s now hact]
  refine ⟨rfl, rfl, ?_⟩
  dsimp only
  split
  · rw [adjustQualityForFps_active]
    exact hact
  · exact hact

/-- C3, witness: the amended behaviour at the default stream, time 123. -/
theorem capture_failure_skips_frame_witness :
    (getNextFrame id true defaultStream 123 none).emitted = none ∧
    (getNextFrame id true defaultStream 123 none).rescheduled = true ∧
    (getNextFrame id true defaultStream 123 none).settings.active = true :=
  capture_failure_skips_frame id defaultStream 123 rfl

/-- C4: code bug.  `validateSession` calls `getSession`, which refreshes
`lastActivity` to the current instant before the expiry test, so a session
2h46m stale is returned (refreshed) instead of being deleted:
`now - lastActivity > SESSION_TIMEOUT` held before the call, yet the result
is the session and the store still holds it. -/
theorem validateSession_stale_eval :
    SESSION_TIMEOUT < 10000000 - 0 ∧
    (validateSession staleStore 42 10000000).2 =
      some (Session.mk 1 42 0 10000000 "ip" "ua" none) ∧
    (validateSession staleStore 42 10000000).1 =
      SessionStore.mk [(1, Session.mk 1 42 0 10000000 "ip" "ua" none)] [(42, 1)] := by
  decide

/-- C5, counterexample: after a settings change (counter reset to 0), a
tick with a failed capture consumes the forced keyframe (counter becomes
1 with no frame emitted), so the next frame actually emitted carries
`isKeyframe = false`. -/
theorem keyframe_forcing_counterexample :
    c5AfterChange.keyframeCount = 0 ∧
    (getNextFrame id true c5AfterChange 400 none).emitted = none ∧
    ((getNextFrame id true ((getNextFrame id true c5AfterChange 400 none).settings) 500
      (some "img")).emitted.map (fun f => f.isKeyframe)) = some false := by decide

/-- C5, amended: after any `stream-settings` change the counter is 0, so
the first frame produced after the change is a keyframe provided that
tick's capture succeeds. -/
theorem keyframe_forced_on_next_capture (compress : String → String)
    (req : SettingsReq) (s : StreamSettings) (now : Nat) (shot : String)
    (hact : s.active = true) :
    ((getNextFrame compress true (streamSettingsHandler req s) now (some shot)).emitted.map
      (fun f => f.isKeyframe)) = some true := by
  rw [getNextFrame_keyframe_flag compress _ now shot
    (by rw [streamSettingsHandler_active]; exact hact)]
  rfl

/-- C5, witness: the amended behaviour right after the quality-50 change. -/
theorem keyframe_forced_on_next_capture_witness :
    ((getNextFrame id true
      (streamSettingsHandler (SettingsReq.mk none (some 50) none none none none) c5Stream)
      400 (some "img")).emitted.map (fun f => f.isKeyframe)) = some true :=
  keyframe_forced_on_next_capture id
    (SettingsReq.mk none (some 50) none none none none) c5Stream 400 "img" (by decide)

/-- C6: after `initializeStream` and any sequence of `stream-settings`
updates, latency reports, pause/resume toggles and producer ticks (with
their adaptive adjustments), fps stays in `[MIN_FPS, MAX_FPS] = [5, 60]`
and quality in `[MIN_QUALITY, MAX_QUALITY] = [20, 95]`. -/
theorem stream_bounds_after_events (compress : String → String) (browserId : Nat)
    (initialSettings : InitSettings) (deviceType : DeviceType) (resolution : Nat × Nat)
    (sessionId : Option Nat) (now : Nat) (events : List StreamEvent) :
    StreamInv (events.foldl (applyStreamEvent compress)
      (initializeStream browserId initialSettings deviceType resolution sessionId now)) :=
  streamInv_events compress events _
    (streamInv_initializeStream browserId initialSettings deviceType resolution
      sessionId now)

/-- C7, counterexample: `calculateStreamSettings` does assign
keyframe interval 8 to a fast connection, but the loop ignores it: on a
fast-connection stream the 9th frame (counter 8) is not a keyframe —
keyframes come every 10th frame. -/
theorem keyframe_interval_counterexample :
    (calculateStreamSettings ConnQuality.fast DeviceType.desktop).keyframeInterval = 8 ∧
    fastStream.connectionQuality = ConnQuality.fast ∧
    fastStreamAfter8.keyframeCount = 8 ∧
    ((getNextFrame id true fastStreamAfter8 900 (some "s")).emitted.map
      (fun f => f.isKeyframe)) = some false := by decide

/-- C7, amended: the loop's keyframe decision uses the module constant
`KEYFRAME_INTERVAL = 10` for every stream, whatever its connection class;
the per-class intervals (slow 15, medium 10, fast 8) computed by
`calculateStreamSettings` are never consulted by the decision. -/
theorem keyframe_interval_constant (compress : String → String) (s : StreamSettings)
    (now : Nat) (shot : String) (dt : DeviceType) (hact : s.active = true) :
    ((getNextFrame compress true s now (some shot)).emitted.map
      (fun f => f.isKeyframe)) = some (s.keyframeCount % KEYFRAME_INTERVAL == 0) ∧
    KEYFRAME_INTERVAL = 10 ∧
    (calculateStreamSettings ConnQuality.slow dt).keyframeInterval = 15 ∧
    (calculateStreamSettings ConnQuality.medium dt).keyframeInterval = 10 ∧
    (calculateStreamSettings ConnQuality.fast dt).keyframeInterval = 8 := by
  refine ⟨getNextFrame_keyframe_flag compress s now shot hact, rfl, ?_, ?_, ?_⟩ <;>
    cases dt <;> rfl

/-- C7, witness: the amended statement at the fast stream after eight
frames. -/
theorem keyframe_interval_constant_witness :
    ((getNextFrame id true fastStreamAfter8 950 (some "w")).emitted.map
      (fun f => f.isKeyframe)) =
      some (fastStreamAfter8.keyframeCount % KEYFRAME_INTERVAL == 0) ∧
    KEYFRAME_INTERVAL = 10 ∧
    (calculateStreamSettings ConnQuality.slow DeviceType.desktop).keyframeInterval = 15 ∧
    (calculateStreamSettings ConnQuality.medium DeviceType.desktop).keyframeInterval = 10 ∧
    (calculateStreamSettings ConnQuality.fast DeviceType.desktop).keyframeInterval = 8 :=
  keyframe_interval_constant id fastStreamAfter8 950 "w" DeviceType.desktop (by decide)

/-- C8, counterexample: at quality 25 a latency-250 report leaves quality
unchanged (the decrement is guarded by `quality > MIN_QUALITY + 10`), not
lowered to `max MIN_QUALITY (25 - 5) = 20` as the claim states; and
repeated latency-250 reports from defaults converge to quality 30 and
fps 10, not 20 and 5. -/
theorem latency_downshift_counterexample :
    lowQualityStream.quality = 25 ∧
    lowQualityStream.adaptiveBitrate = true ∧
    (latencyReportHandler 250 lowQualityStream).quality = 25 ∧
    (latencyReportHandler 250 lowQualityStream).quality ≠
      max MIN_QUALITY (lowQualityStream.quality - 5) ∧
    (Nat.iterate (latencyReportHandler 250) 12 defaultStream).quality = 30 ∧
    (Nat.iterate (latencyReportHandler 250) 12 defaultStream).fps = 10 ∧
    (latencyReportHandler 250
      (Nat.iterate (latencyReportHandler 250) 12 defaultStream)).quality = 30 ∧
    (latencyReportHandler 250
      (Nat.iterate (latencyReportHandler 250) 12 defaultStream)).fps = 5 + 5 := by
  decide

/-- C8, amended: with adaptive on and latency above 200 ms, quality drops
by 5 only while `quality > MIN_QUALITY + 10` and fps by 2 only while
`fps > MIN_FPS + 5` (each clamped); three 250 ms reports from the defaults
(80, 30) give −15/−6, and repeated reports converge to (30, 10). -/
theorem latency_downshift_guarded (s : StreamSettings) (lat : Nat)
    (hab : s.adaptiveBitrate = true) (hlat : LATENCY_THRESHOLD_HIGH < lat) :
    (latencyReportHandler lat s).quality =
      (if MIN_QUALITY + 10 < s.quality then max MIN_QUALITY (s.quality - 5)
        else s.quality) ∧
    (latencyReportHandler lat s).fps =
      (if MIN_FPS + 5 < s.fps then max MIN_FPS (s.fps - 2) else s.fps) ∧
    (Nat.iterate (latencyReportHandler 250) 3 defaultStream).quality = 80 - 15 ∧
    (Nat.iterate (latencyReportHandler 250) 3 defaultStream).fps = 30 - 6 ∧
    (Nat.iterate (latencyReportHandler 250) 12 defaultStream).quality = 30 ∧
    (Nat.iterate (latencyReportHandler 250) 12 defaultStream).fps = 10 := by
  have hlat0 : lat ≠ 0 := by
    unfold LATENCY_THRESHOLD_HIGH at hlat
    omega
  have e1 : latencyReportHandler lat s =
      adjustQualityBasedOnLatency { s with latency := some lat } := by
    unfold latencyReportHandler
    dsimp only
    rw [if_pos ⟨hab, hlat0⟩]
  rw [e1]
  unfold adjustQualityBasedOnLatency
  dsimp only
  rw [if_neg hlat0, if_pos hlat]
  refine ⟨?_, ?_, by decide, by decide, by decide, by decide⟩
  · dsimp only
    split_ifs <;> rfl
  · dsimp only
    split_ifs <;> rfl

/-- C8, witness: the amended step behaviour at the default (80, 30)
stream under a 250 ms report. -/
theorem latency_downshift_guarded_witness :
    (latencyReportHandler 250 defaultStream).quality =
      (if MIN_QUALITY + 10 < defaultStream.quality then
        max MIN_QUALITY (defaultStream.quality - 5) else defaultStream.quality) ∧
    (latencyReportHandler 250 defaultStream).fps =
      (if MIN_FPS + 5 < defaultStream.fps then max MIN_FPS (defaultStream.fps - 2)
        else defaultStream.fps) ∧
    (Nat.iterate (latencyReportHandler 250) 3 defaultStream).quality = 80 - 15 ∧
    (Nat.iterate (latencyReportHandler 250) 3 defaultStream).fps = 30 - 6 ∧
    (Nat.iterate (latencyReportHandler 250) 12 defaultStream).quality = 30 ∧
    (Nat.iterate (latencyReportHandler 250) 12 defaultStream).fps = 10 :=
  latency_downshift_guarded defaultStream 250 (by decide) (by decide)

/-- C9: code bug.  A second `init` from an already-initialised socket
reuses the mapped browser id but calls `initializeStream` — and so
`startStreamLoop` — again, leaving two runnable producer-loop chains for
the one socket id. -/
theorem double_init_double_loop :
    (runSocket [SocketEvent.init 0 7, SocketEvent.init 0 8]).socketBrowserMap =
      [(0, 7)] ∧
    (runSocket [SocketEvent.init 0 7, SocketEvent.init 0 8]).loops.count 0 = 2 ∧
    ¬ (runSocket [SocketEvent.init 0 7, SocketEvent.init 0 8]).loops.count 0 ≤ 1 := by
  decide

/-- C10: every successful `getSession` lookup — by id or token, including
the one inside `validateSession` — returns the stored session with
`lastActivity` set to the current instant and all other fields unchanged,
and writes that refreshed record back, leaving the token index alone. -/
theorem session_read_refreshes :
    (∀ store idOrToken now s, (getSession store idOrToken now).2 = some s →
      s.lastActivity = now ∧
      ∃ old, store.sessions.lookup (resolveSessionId store idOrToken) = some old ∧
        s = { old with lastActivity := now } ∧
        (getSession store idOrToken now).1.sessions =
          store.sessions.map (fun p =>
            if p.1 == resolveSessionId store idOrToken then (p.1, s) else p) ∧
        (getSession store idOrToken now).1.tokenToSessionMap =
          store.tokenToSessionMap) ∧
    (∀ store token now s, (validateSession store token now).2 = some s →
      s.lastActivity = now) := by
  have main : ∀ store idOrToken now s, (getSession store idOrToken now).2 = some s →
      s.lastActivity = now ∧
      ∃ old, store.sessions.lookup (resolveSessionId store idOrToken) = some old ∧
        s = { old with lastActivity := now } ∧
        (getSession store idOrToken now).1.sessions =
          store.sessions.map (fun p =>
            if p.1 == resolveSessionId store idOrToken then (p.1, s) else p) ∧
        (getSession store idOrToken now).1.tokenToSessionMap =
          store.tokenToSessionMap := by
    intro store idOrToken now s h
    unfold getSession at h ⊢
    dsimp only at h ⊢
    cases hl : store.sessions.lookup (resolveSessionId store idOrToken) with
    | none =>
      rw [hl] at h
      exact absurd h (by simp)
    | some old =>
      rw [hl] at h
      dsimp only at h ⊢
      have hs : s = { old with lastActivity := now } := by
        injection h with h'
        exact h'.symm
      subst hs
      exact ⟨rfl, old, rfl, rfl, rfl, rfl⟩
  refine ⟨main, ?_⟩
  intro store token now s h
  unfold validateSession at h
  split at h
  next heq =>
    simp at h
  next store1 session heq =>
    dsimp only at h
    split at h
    · simp at h
    · have hs : session = s := by
        dsimp only at h
        injection h
      have hget : (getSession store token now).2 = some session := by
        rw [heq]
      rw [← hs]
      exact (main store token now session hget).1

/-- C10, witness: reading the stale store by token 42 at instant 777. -/
theorem session_read_refreshes_witness :
    ((Session.mk 1 42 0 777 "ip" "ua" none).lastActivity = 777 ∧
      ∃ old, staleStore.sessions.lookup (resolveSessionId staleStore 42) = some old ∧
        Session.mk 1 42 0 777 "ip" "ua" none = { old with lastActivity := 777 } ∧
        (getSession staleStore 42 777).1.sessions =
          staleStore.sessions.map (fun p =>
            if p.1 == resolveSessionId staleStore 42 then
              (p.1, Session.mk 1 42 0 777 "ip" "ua" none) else p) ∧
        (getSession staleStore 42 777).1.tokenToSessionMap =
          staleStore.tokenToSessionMap) ∧
    (Session.mk 1 42 0 777 "ip" "ua" none).lastActivity = 777 :=
  ⟨session_read_refreshes.1 staleStore 42 777 (Session.mk 1 42 0 777 "ip" "ua" none) rfl,
   session_read_refreshes.2 staleStore 42 777 (Session.mk 1 42 0 777 "ip" "ua" none) rfl⟩

end BrowserTest
